import Mathlib

/-!
Verification of the time-bucketed aggregation and catch-up engine of the
bigdata-proy repository (app/services/batch_processing_service.py and
app/repositories/energy_repository.py).

Shallow embedding conventions:
* Timestamps (`timestamp_utc`, `hora_inicio_utc`) are minutes since an epoch
  placed on a midnight hour boundary, as a `Nat`.  `replace(minute=0,
  second=0, microsecond=0)` becomes truncation to a multiple of 60; casting a
  timestamp to a SQL `Date` becomes division by 1440; `date` values are day
  numbers (`Nat`).  Sub-minute precision is irrelevant to every claim.
* kWh values are `ℚ` (the scenario arithmetic 2.0 + 3.0 = 5.0, 5.0 / 2 = 2.5
  is exact in both binary floats and `ℚ`).
* The database is a record of row lists; SQL `GROUP BY` is grouping by the
  deduplicated key list, `SUM`/`COUNT`/`AVG` are list folds, `MAX`/`MIN` with
  `scalar_one_or_none` are `List.max?`/`List.min?` (`none` = SQL NULL).
* Storage-layer exceptions are modelled by a fault oracle (`Faults`): one
  boolean per storage call, keyed by the window being processed.  A raised
  exception inside `process_*_batch` reaches the `except` handler which rolls
  the session back, so the resulting state is the entry state.
* The `while` loops of the two catch-up drivers are recursion over the list
  of pending windows (the loop variable's successive values), carrying the
  two counters `total_processed_count` and `*_processed_this_run`; the driver
  additionally records the sequence of windows handed to the single-window
  processor together with each returned status (the trace that the Python
  code prints).
* Both Python drivers end with a bare `return` / fall off the end, i.e. they
  return Python `None`: this is the `Option Nat` value `none` returned by
  `run_hourly_catchup` / `run_daily_catchup` below.
-/

namespace EnergyBatch

/-- Minutes-since-epoch timestamp truncated down to its hour boundary; models
`dt.replace(minute=0, second=0, microsecond=0)`. -/
def truncHour (t : Nat) : Nat := t - t % 60

/-- One row of the `lecturas` table (model `LecturaEnergia`); the autoincrement
`id` and `fecha_recepcion_utc` columns play no role in any claim and are
omitted. -/
structure Reading where
  id_sede_fk : Nat
  timestamp_utc : Nat
  consumo_kwh : ℚ
  procesado : Bool
deriving DecidableEq

/-- One row of the `consumo_hora` table (model `ConsumoHora`). -/
structure HourRow where
  id_sede_fk : Nat
  hora_inicio_utc : Nat
  consumo_total_kwh : ℚ
  numero_lecturas : Nat
  consumo_promedio_kwh : Option ℚ
  fecha_procesamiento_utc : Nat
deriving DecidableEq

/-- One row of the `consumo_dia` table (model `ConsumoDia`). -/
structure DayRow where
  id_sede_fk : Nat
  fecha_utc : Nat
  consumo_total_diario_kwh : ℚ
  numero_horas_registradas : Nat
  consumo_promedio_horario_kwh : ℚ
  fecha_procesamiento_utc : Nat
deriving DecidableEq

/-- The database state seen through the ORM session, plus the ambient clock
`now` read by `datetime.now(timezone.utc)` when stamping
`fecha_procesamiento_utc`. -/
structure DB where
  lecturas : List Reading
  consumo_hora : List HourRow
  consumo_dia : List DayRow
  now : Nat
deriving DecidableEq

/-- Row filter of `aggregate_hourly_consumption` and of
`mark_readings_as_processed`: `timestamp_utc >= start`, `timestamp_utc < end`,
`NOT procesado`. -/
def unprocessedInWindow (s e : Nat) (r : Reading) : Bool :=
  decide (s ≤ r.timestamp_utc ∧ r.timestamp_utc < e ∧ r.procesado = false)

/-- `aggregate_hourly_consumption` (energy_repository.py lines 47-78): SQL
`SELECT id_sede_fk, SUM(consumo_kwh), COUNT(id), AVG(consumo_kwh) ... GROUP BY
id_sede_fk` over unprocessed readings in the half-open window.  `AVG` over a
group is NULL exactly when the group is empty. -/
structure HourlyAggRow where
  id_sede_fk : Nat
  total_kwh : ℚ
  count : Nat
  avg_kwh : Option ℚ
deriving DecidableEq

def aggregate_hourly_consumption (db : DB) (start_hour_utc end_hour_utc : Nat) :
    List HourlyAggRow :=
  let rows := db.lecturas.filter (unprocessedInWindow start_hour_utc end_hour_utc)
  ((rows.map (fun r => r.id_sede_fk)).dedup).map (fun k =>
    let g := rows.filter (fun r => decide (r.id_sede_fk = k))
    { id_sede_fk := k
      total_kwh := (g.map (fun r => r.consumo_kwh)).sum
      count := g.length
      avg_kwh :=
        if g.length = 0 then none
        else some ((g.map (fun r => r.consumo_kwh)).sum / (g.length : ℚ)) })

/-- Per-row action of the UPDATE in `mark_readings_as_processed`. -/
def markReadingInWindow (s e : Nat) (r : Reading) : Reading :=
  if s ≤ r.timestamp_utc ∧ r.timestamp_utc < e ∧ r.procesado = false then
    { r with procesado := true }
  else r

/-- `mark_readings_as_processed` (energy_repository.py lines 116-141): flips
`procesado` to true for every unprocessed reading in the window, returning the
new state and the affected row count. -/
def mark_readings_as_processed (db : DB) (start_hour_utc end_hour_utc : Nat) :
    DB × Nat :=
  ({ db with
      lecturas := db.lecturas.map (markReadingInWindow start_hour_utc end_hour_utc) },
   (db.lecturas.filter (unprocessedInWindow start_hour_utc end_hour_utc)).length)

/-- Row built by the loop body of `save_hourly_aggregates`. -/
def hourRowFromAgg (a : HourlyAggRow) (hour_start_utc now_utc : Nat) : HourRow :=
  { id_sede_fk := a.id_sede_fk
    hora_inicio_utc := hour_start_utc
    consumo_total_kwh := a.total_kwh
    numero_lecturas := a.count
    consumo_promedio_kwh := a.avg_kwh
    fecha_procesamiento_utc := now_utc }

/-- `save_hourly_aggregates` (energy_repository.py lines 81-113): appends one
`consumo_hora` row per aggregate (`add_all`; commit owned by the caller). -/
def save_hourly_aggregates (db : DB) (aggregates : List HourlyAggRow)
    (hour_start_utc : Nat) : DB :=
  { db with
      consumo_hora :=
        db.consumo_hora ++ aggregates.map (fun a => hourRowFromAgg a hour_start_utc db.now) }

/-- Row filter of `aggregate_daily_consumption_from_hourly`:
`hora_inicio_utc >= start_dt`, `hora_inicio_utc < end_dt`. -/
def hourRowInDay (s e : Nat) (h : HourRow) : Bool :=
  decide (s ≤ h.hora_inicio_utc ∧ h.hora_inicio_utc < e)

/-- Result rows of `aggregate_daily_consumption_from_hourly`:
(id_sede_fk, total_daily_kwh, hour_count). -/
structure DailyAggRow where
  id_sede_fk : Nat
  total_daily_kwh : ℚ
  hour_count : Nat
deriving DecidableEq

/-- `aggregate_daily_consumption_from_hourly` (energy_repository.py lines
181-213): groups the `consumo_hora` rows of the day `[midnight, midnight+24h)`
by `id_sede_fk`, with `SUM(consumo_total_kwh)` and `COUNT(id)`. -/
def aggregate_daily_consumption_from_hourly (db : DB) (target_date_utc : Nat) :
    List DailyAggRow :=
  let start_dt := target_date_utc * 1440
  let end_dt := start_dt + 1440
  let rows := db.consumo_hora.filter (hourRowInDay start_dt end_dt)
  ((rows.map (fun h => h.id_sede_fk)).dedup).map (fun k =>
    let g := rows.filter (fun h => decide (h.id_sede_fk = k))
    { id_sede_fk := k
      total_daily_kwh := (g.map (fun h => h.consumo_total_kwh)).sum
      hour_count := g.length })

/-- Row built by the loop body of `save_daily_aggregates`, including
`avg_hourly = total_daily / hour_count if hour_count > 0 else 0`
(energy_repository.py line 227). -/
def dailyRowFromAgg (a : DailyAggRow) (target_date_utc now_utc : Nat) : DayRow :=
  { id_sede_fk := a.id_sede_fk
    fecha_utc := target_date_utc
    consumo_total_diario_kwh := a.total_daily_kwh
    numero_horas_registradas := a.hour_count
    consumo_promedio_horario_kwh :=
      if 0 < a.hour_count then a.total_daily_kwh / (a.hour_count : ℚ) else 0
    fecha_procesamiento_utc := now_utc }

/-- `save_daily_aggregates` (energy_repository.py lines 216-248). -/
def save_daily_aggregates (db : DB) (aggregates : List DailyAggRow)
    (target_date_utc : Nat) : DB :=
  { db with
      consumo_dia :=
        db.consumo_dia ++ aggregates.map (fun a => dailyRowFromAgg a target_date_utc db.now) }

/-- `find_last_processed_hour`: `SELECT MAX(hora_inicio_utc) FROM consumo_hora`. -/
def find_last_processed_hour (db : DB) : Option Nat :=
  (db.consumo_hora.map (fun h => h.hora_inicio_utc)).max?

/-- `find_first_unprocessed_reading_time`: `SELECT MIN(timestamp_utc) FROM
lecturas WHERE NOT procesado`. -/
def find_first_unprocessed_reading_time (db : DB) : Option Nat :=
  ((db.lecturas.filter (fun r => !r.procesado)).map (fun r => r.timestamp_utc)).min?

/-- The inline `SELECT MAX(timestamp_utc) FROM lecturas` of
`run_hourly_catchup` (batch_processing_service.py lines 117-120). -/
def latest_reading_time (db : DB) : Option Nat :=
  (db.lecturas.map (fun r => r.timestamp_utc)).max?

/-- `find_last_processed_day`: `SELECT MAX(fecha_utc) FROM consumo_dia`. -/
def find_last_processed_day (db : DB) : Option Nat :=
  (db.consumo_dia.map (fun r => r.fecha_utc)).max?

/-- `find_last_date_in_hourly`: `SELECT MAX(CAST(hora_inicio_utc AS DATE))
FROM consumo_hora`. -/
def find_last_date_in_hourly (db : DB) : Option Nat :=
  (db.consumo_hora.map (fun h => h.hora_inicio_utc / 1440)).max?

/-- The inline `SELECT MIN(CAST(hora_inicio_utc AS DATE)) FROM consumo_hora`
of `run_daily_catchup` (batch_processing_service.py lines 236-237). -/
def first_date_in_hourly (db : DB) : Option Nat :=
  (db.consumo_hora.map (fun h => h.hora_inicio_utc / 1440)).min?

/-- Fault oracle for the storage layer: each field tells whether the
corresponding storage call raises while the window keyed by its first bucket
(hour start, resp. date) is being processed. -/
structure Faults where
  aggF : Nat → Bool
  saveF : Nat → Bool
  markF : Nat → Bool
  commitF : Nat → Bool

/-- The fault-free storage layer. -/
def noFaults : Faults := ⟨fun _ => false, fun _ => false, fun _ => false, fun _ => false⟩

/-- Discriminator of the result dicts `{"status": "success" | "error", ...}`. -/
inductive BStatus
  | success
  | error
deriving DecidableEq

/-- The result dict returned by `process_hourly_batch` / `process_daily_batch`:
a status and a message, nothing else. -/
structure BatchResult where
  status : BStatus
  message : String
deriving DecidableEq

/-- `process_hourly_batch` (batch_processing_service.py lines 13-67).  The
window is the hour preceding the truncated supplied timestamp.  Any raising
storage call lands in the `except` handler: `db.rollback()` restores the entry
state and the error dict is returned.  The success messages reproduce the
information content of the Python f-strings (aggregate count and window
start). -/
def process_hourly_batch (f : Faults) (db : DB) (target_hour_utc : Nat) :
    DB × BatchResult :=
  let end_process_hour := truncHour target_hour_utc
  let start_process_hour := end_process_hour - 60
  if f.aggF start_process_hour then
    (db, ⟨BStatus.error, "aggregate_hourly_consumption raised"⟩)
  else
    let aggregates := aggregate_hourly_consumption db start_process_hour end_process_hour
    if aggregates.isEmpty then
      if f.markF start_process_hour then
        (db, ⟨BStatus.error, "mark_readings_as_processed raised"⟩)
      else
        let marked := mark_readings_as_processed db start_process_hour end_process_hour
        if f.commitF start_process_hour then (db, ⟨BStatus.error, "commit raised"⟩)
        else (marked.1, ⟨BStatus.success, "No new readings to process."⟩)
    else
      if f.saveF start_process_hour then
        (db, ⟨BStatus.error, "save_hourly_aggregates raised"⟩)
      else
        let db1 := save_hourly_aggregates db aggregates start_process_hour
        if f.markF start_process_hour then
          (db, ⟨BStatus.error, "mark_readings_as_processed raised"⟩)
        else
          let marked := mark_readings_as_processed db1 start_process_hour end_process_hour
          if f.commitF start_process_hour then (db, ⟨BStatus.error, "commit raised"⟩)
          else
            (marked.1,
             ⟨BStatus.success,
              "Processed " ++ toString aggregates.length ++ " aggregates for hour " ++
                toString start_process_hour ++ "."⟩)

/-- `process_daily_batch` (batch_processing_service.py lines 176-216).  On the
empty-aggregates path the Python returns success immediately, without saving
or committing. -/
def process_daily_batch (f : Faults) (db : DB) (target_date_utc : Nat) :
    DB × BatchResult :=
  if f.aggF target_date_utc then
    (db, ⟨BStatus.error, "aggregate_daily_consumption_from_hourly raised"⟩)
  else
    let aggregates := aggregate_daily_consumption_from_hourly db target_date_utc
    if aggregates.isEmpty then
      (db, ⟨BStatus.success, "No hourly data found to aggregate for this day."⟩)
    else
      if f.saveF target_date_utc then
        (db, ⟨BStatus.error, "save_daily_aggregates raised"⟩)
      else
        let db1 := save_daily_aggregates db aggregates target_date_utc
        if f.commitF target_date_utc then (db, ⟨BStatus.error, "commit raised"⟩)
        else
          (db1,
           ⟨BStatus.success,
            "Processed " ++ toString aggregates.length ++ " daily aggregates for " ++
              toString target_date_utc ++ "."⟩)

/-- Choice of the first hour to process in `run_hourly_catchup`
(batch_processing_service.py lines 100-114). -/
def nextHourToProcess (last_processed_start_hour : Option Nat)
    (first_unprocessed_time : Nat) : Nat :=
  match last_processed_start_hour with
  | some lp =>
    let next_hour := lp + 60
    let first_possible_hour := truncHour first_unprocessed_time
    if next_hour < first_possible_hour then first_possible_hour else next_hour
  | none => truncHour first_unprocessed_time

/-- First hour `run_hourly_catchup` will hand to the processor (`none` when
there is no unprocessed reading, in which case the driver returns early). -/
def hourlyNextWindow (db : DB) : Option Nat :=
  (find_first_unprocessed_reading_time db).map
    (nextHourToProcess (find_last_processed_hour db))

/-- First day `run_daily_catchup` will hand to the processor
(batch_processing_service.py lines 232-241): the watermark plus one day when a
watermark exists, otherwise the earliest date in `consumo_hora`. -/
def dailyNextWindow (db : DB) : Option Nat :=
  match find_last_processed_day db with
  | some lp => some (lp + 1)
  | none => first_date_in_hourly db

/-- `max_hours_per_run = 99999 * 7` (batch_processing_service.py line 140). -/
def maxHoursPerRun : Nat := 99999 * 7

/-- `max_days_per_run = 1000000` (batch_processing_service.py line 250). -/
def maxDaysPerRun : Nat := 1000000

/-- Successive values of `current_hour` in the hourly `while` loop: from `a`,
step one hour, while strictly below `b`. -/
def hourlyWindows (a b : Nat) : List Nat := List.range' a ((b - a + 59) / 60) 60

/-- Successive values of `current_day` in the daily `while` loop: from `a`,
step one day, while less than or equal to `b`. -/
def dailyWindows (a b : Nat) : List Nat := List.range' a (b + 1 - a) 1

/-- The shared shape of the two catch-up `while` loops, recursing over the
pending windows: `tot` is `total_processed_count`, `run` is
`hours_processed_this_run` / `days_processed_this_run` (checked against the
cap before each window), and the returned list is the trace of windows handed
to the single-window processor, each with the status it returned.  On a
non-success status the loop breaks; on success both counters advance. -/
def catchupLoopGo (proc : DB → Nat → DB × BatchResult) (cap : Nat) :
    DB → Nat → Nat → List Nat → DB × Nat × List (Nat × BStatus)
  | db, tot, _, [] => (db, tot, [])
  | db, tot, run, w :: ws =>
    if run < cap then
      let pr := proc db w
      if pr.2.status = BStatus.success then
        let rest := catchupLoopGo proc cap pr.1 (tot + 1) (run + 1) ws
        (rest.1, rest.2.1, (w, pr.2.status) :: rest.2.2)
      else (pr.1, tot, [(w, pr.2.status)])
    else (db, tot, [])

/-- `run_hourly_catchup` (batch_processing_service.py lines 88-171), with its
final `total_processed_count` and window trace exposed; the loop body passes
`current_hour + 1h` to `process_hourly_batch` so that `current_hour` is the
window processed. -/
def run_hourly_catchup_core (f : Faults) (db : DB) : DB × Nat × List (Nat × BStatus) :=
  match hourlyNextWindow db with
  | none => (db, 0, [])
  | some next_hour_to_process =>
    match latest_reading_time db with
    | none => (db, 0, [])
    | some latest =>
      catchupLoopGo (fun d w => process_hourly_batch f d (w + 60)) maxHoursPerRun db 0 0
        (hourlyWindows next_hour_to_process (truncHour latest))

/-- The value `run_hourly_catchup` actually returns: the new database state
and the Python return value, which is `None` on every path. -/
def run_hourly_catchup (f : Faults) (db : DB) : DB × Option Nat :=
  ((run_hourly_catchup_core f db).1, none)

/-- The `total_processed_count` that `run_hourly_catchup` logs at the end. -/
def run_hourly_catchup_count (f : Faults) (db : DB) : Nat :=
  (run_hourly_catchup_core f db).2.1

/-- `run_daily_catchup` (batch_processing_service.py lines 218-267), with its
final `total_processed_count` and window trace exposed. -/
def run_daily_catchup_core (f : Faults) (db : DB) : DB × Nat × List (Nat × BStatus) :=
  match find_last_date_in_hourly db with
  | none => (db, 0, [])
  | some last_day_to_process =>
    match dailyNextWindow db with
    | none => (db, 0, [])
    | some next_day_to_process =>
      catchupLoopGo (fun d w => process_daily_batch f d w) maxDaysPerRun db 0 0
        (dailyWindows next_day_to_process last_day_to_process)

/-- The value `run_daily_catchup` actually returns: the new database state and
the Python return value, which is `None` on every path. -/
def run_daily_catchup (f : Faults) (db : DB) : DB × Option Nat :=
  ((run_daily_catchup_core f db).1, none)

/-- The `total_processed_count` that `run_daily_catchup` logs at the end. -/
def run_daily_catchup_count (f : Faults) (db : DB) : Nat :=
  (run_daily_catchup_core f db).2.1

/-- Modelled from the spec section 4.1 for comparison with the code: a bucket
aggregation that "fails with an `InvalidWindow` error" whenever
`windowEnd <= windowStart`, and otherwise behaves like the repository
aggregation.  The code has no such validation anywhere, so this definition
follows the spec's words; it exists only to exhibit the divergence. -/
def aggregate_hourly_consumption_specModel (db : DB) (start_hour_utc end_hour_utc : Nat) :
    Except String (List HourlyAggRow) :=
  if end_hour_utc ≤ start_hour_utc then Except.error "InvalidWindow"
  else Except.ok (aggregate_hourly_consumption db start_hour_utc end_hour_utc)

/-- No storage call raises during the hourly processing of window `w`. -/
def noHourlyFault (f : Faults) (w : Nat) : Bool :=
  !(f.aggF w || f.saveF w || f.markF w || f.commitF w)

/-- No storage call raises during the daily processing of date `w`. -/
def noDailyFault (f : Faults) (w : Nat) : Bool :=
  !(f.aggF w || f.saveF w || f.commitF w)

/-- Database for the C1 counterexample: daily watermark at day 10, but the
hourly store only has data on day 20 (its earlier rows are gone, never
produced, or the daily table was seeded ahead of the hourly one). -/
def c1db : DB := ⟨[], [⟨1, 20 * 1440, 1, 1, some 1, 0⟩], [⟨1, 10, 1, 1, 1, 0⟩], 0⟩

/-- Database for the C1 witness: hourly watermark at minute 60 (hour 1), one
unprocessed reading at minute 155 (hour 2). -/
def c1wdb : DB := ⟨[⟨1, 155, 1, false⟩], [⟨1, 60, 1, 1, some 1, 0⟩], [], 0⟩

/-- Database for the C2 counterexample: one unprocessed raw reading. -/
def c2db : DB := ⟨[⟨1, 700, 1, false⟩], [], [], 0⟩

/-- Database for the C3 counterexample: two unprocessed readings, one in hour
10 (minute 605) and the newest at minute 700, so the catch-up run processes
exactly one window (hour 10) and then stops at the frontier. -/
def c3db : DB := ⟨[⟨1, 605, 2, false⟩, ⟨1, 700, 1, false⟩], [], [], 0⟩

/-- Databases for the C5 counterexample: same window, same number of per-site
groups, but one unprocessed reading versus two. -/
def c5db1 : DB := ⟨[⟨1, 605, 2, false⟩], [], [], 0⟩

/-- Second database of the C5 counterexample (two readings of site 1). -/
def c5db2 : DB := ⟨[⟨1, 605, 2, false⟩, ⟨1, 640, 3, false⟩], [], [], 0⟩

/-- Database for the C6 scenario: daily watermark at day 1000 (standing for
2024-03-01) and hourly rows on days 1001, 1002, 1003 (2024-03-02 .. -04). -/
def c6db : DB :=
  ⟨[],
   [⟨1, 1001 * 1440, 1, 1, some 1, 0⟩, ⟨1, 1002 * 1440, 1, 1, some 1, 0⟩,
    ⟨1, 1003 * 1440, 1, 1, some 1, 0⟩],
   [⟨1, 1000, 1, 1, 1, 0⟩], 0⟩

/-- Fault oracle for the C6 scenario: the storage layer raises at commit time
exactly while day 1002 (2024-03-03) is being processed. -/
def c6faults : Faults := ⟨fun _ => false, fun _ => false, fun _ => false, fun d => d == 1002⟩

/-- Database for the C7 scenario: site E1 (id 1) with raw readings at 10:05
(minute 605) of value 2.0 and 10:40 (minute 640) of value 3.0, neither
consumed. -/
def c7db : DB := ⟨[⟨1, 605, 2, false⟩, ⟨1, 640, 3, false⟩], [], [], 0⟩

/-- Expected state after the C7 scenario: both readings consumed and a single
hourly aggregate row for hour 600 (10:00) with total 5, count 2, average 5/2. -/
def c7db' : DB :=
  ⟨[⟨1, 605, 2, true⟩, ⟨1, 640, 3, true⟩],
   [⟨1, 600, 5, 2, some ((5 : ℚ) / 2), 0⟩], [], 0⟩

/-! Helper lemmas. -/

theorem truncHour_idem (t : Nat) : truncHour (truncHour t) = truncHour t := by
  unfold truncHour
  omega

theorem process_hourly_batch_trunc (f : Faults) (db : DB) (t : Nat) :
    process_hourly_batch f db t = process_hourly_batch f db (truncHour t) := by
  unfold process_hourly_batch
  rw [truncHour_idem]

theorem catchupLoopGo_trace_take (proc : DB → Nat → DB × BatchResult) (cap : Nat) :
    ∀ (ws : List Nat) (db : DB) (tot run : Nat),
      ∃ k, ((catchupLoopGo proc cap db tot run ws).2.2.map Prod.fst) = ws.take k := by
  intro ws
  induction ws with
  | nil => exact fun db tot run => ⟨0, by simp [catchupLoopGo]⟩
  | cons w ws ih =>
    intro db tot run
    by_cases hc : run < cap
    · by_cases hs : (proc db w).2.status = BStatus.success
      · obtain ⟨k, hk⟩ := ih (proc db w).1 (tot + 1) (run + 1)
        exact ⟨k + 1, by simp [catchupLoopGo, hc, hs, hk]⟩
      · exact ⟨1, by simp [catchupLoopGo, hc, hs]⟩
    · exact ⟨0, by simp [catchupLoopGo, hc]⟩

theorem catchupLoopGo_dropLast_success (proc : DB → Nat → DB × BatchResult) (cap : Nat) :
    ∀ (ws : List Nat) (db : DB) (tot run : Nat),
      ∀ p ∈ ((catchupLoopGo proc cap db tot run ws).2.2).dropLast,
        p.2 = BStatus.success := by
  intro ws
  induction ws with
  | nil => intro db tot run p hp; simp [catchupLoopGo] at hp
  | cons w ws ih =>
    intro db tot run p hp
    by_cases hc : run < cap
    · by_cases hs : (proc db w).2.status = BStatus.success
      · rw [show catchupLoopGo proc cap db tot run (w :: ws) =
            ((catchupLoopGo proc cap (proc db w).1 (tot + 1) (run + 1) ws).1,
             (catchupLoopGo proc cap (proc db w).1 (tot + 1) (run + 1) ws).2.1,
             (w, (proc db w).2.status) ::
               (catchupLoopGo proc cap (proc db w).1 (tot + 1) (run + 1) ws).2.2)
            from by simp [catchupLoopGo, hc, hs]] at hp
        rcases htr : (catchupLoopGo proc cap (proc db w).1 (tot + 1) (run + 1) ws).2.2 with
          _ | ⟨y, l⟩
        · rw [htr] at hp
          simp at hp
        · rw [htr, List.dropLast_cons₂] at hp
          rcases List.mem_cons.mp hp with h1 | h2
          · rw [h1]
            exact hs
          · have := ih (proc db w).1 (tot + 1) (run + 1) p
            rw [htr] at this
            exact this h2
      · rw [show catchupLoopGo proc cap db tot run (w :: ws) =
            ((proc db w).1, tot, [(w, (proc db w).2.status)])
            from by simp [catchupLoopGo, hc, hs]] at hp
        simp at hp
    · rw [show catchupLoopGo proc cap db tot run (w :: ws) = (db, tot, []) from by
        simp [catchupLoopGo, hc]] at hp
      simp at hp

theorem catchupLoopGo_count_eq (proc : DB → Nat → DB × BatchResult) (cap : Nat) :
    ∀ (ws : List Nat) (db : DB) (tot run : Nat),
      (catchupLoopGo proc cap db tot run ws).2.1 =
        tot + ((catchupLoopGo proc cap db tot run ws).2.2.filter
          (fun p => decide (p.2 = BStatus.success))).length := by
  intro ws
  induction ws with
  | nil => intro db tot run; simp [catchupLoopGo]
  | cons w ws ih =>
    intro db tot run
    by_cases hc : run < cap
    · by_cases hs : (proc db w).2.status = BStatus.success
      · have := ih (proc db w).1 (tot + 1) (run + 1)
        simp [catchupLoopGo, hc, hs, this]
        omega
      · simp [catchupLoopGo, hc, hs]
    · simp [catchupLoopGo, hc]

theorem catchupLoopGo_count_le (proc : DB → Nat → DB × BatchResult) (cap : Nat) :
    ∀ (ws : List Nat) (db : DB) (tot run : Nat),
      (catchupLoopGo proc cap db tot run ws).2.1 ≤ tot + (cap - run) := by
  intro ws
  induction ws with
  | nil => intro db tot run; simp [catchupLoopGo]
  | cons w ws ih =>
    intro db tot run
    by_cases hc : run < cap
    · by_cases hs : (proc db w).2.status = BStatus.success
      · have := ih (proc db w).1 (tot + 1) (run + 1)
        simp only [catchupLoopGo, hc, if_true, hs, if_pos]
        simp only [catchupLoopGo, hc, hs] at this ⊢
        omega
      · simp [catchupLoopGo, hc, hs]
    · simp [catchupLoopGo, hc]

theorem range'_pairwise_lt (step : Nat) (hs : 0 < step) :
    ∀ (n a : Nat), (List.range' a n step).Pairwise (· < ·) := by
  intro n
  induction n with
  | zero => intro a; simp
  | succ n ih =>
    intro a
    rw [List.range'_succ]
    refine List.Pairwise.cons ?_ (ih (a + step))
    intro b hb
    rw [List.mem_range'] at hb
    obtain ⟨i, _, rfl⟩ := hb
    omega

theorem mem_hourlyWindows_bounds {a b w : Nat} (h : w ∈ hourlyWindows a b) :
    a ≤ w ∧ w < b := by
  unfold hourlyWindows at h
  rw [List.mem_range'] at h
  obtain ⟨i, hi, rfl⟩ := h
  omega

theorem mem_dailyWindows_bounds {a b w : Nat} (h : w ∈ dailyWindows a b) :
    a ≤ w ∧ w ≤ b := by
  unfold dailyWindows at h
  rw [List.mem_range'] at h
  obtain ⟨i, hi, rfl⟩ := h
  omega

theorem mem_aggregate_hourly {db : DB} {s e : Nat} {r : HourlyAggRow}
    (hr : r ∈ aggregate_hourly_consumption db s e) :
    1 ≤ r.count ∧ r.avg_kwh = some (r.total_kwh / (r.count : ℚ)) := by
  simp only [aggregate_hourly_consumption, List.mem_map] at hr
  obtain ⟨k, hk, rfl⟩ := hr
  rw [List.mem_dedup, List.mem_map] at hk
  obtain ⟨x, hx, hxk⟩ := hk
  have hxg : x ∈ (db.lecturas.filter (unprocessedInWindow s e)).filter
      (fun r2 => decide (r2.id_sede_fk = k)) := by
    rw [List.mem_filter]
    exact ⟨hx, by simp [hxk]⟩
  have hlen : 0 <
      ((db.lecturas.filter (unprocessedInWindow s e)).filter
        (fun r2 => decide (r2.id_sede_fk = k))).length :=
    List.length_pos_of_mem hxg
  refine ⟨hlen, ?_⟩
  simp only
  rw [if_neg (by omega)]

theorem mem_aggregate_daily {db : DB} {d : Nat} {a : DailyAggRow}
    (ha : a ∈ aggregate_daily_consumption_from_hourly db d) :
    1 ≤ a.hour_count := by
  simp only [aggregate_daily_consumption_from_hourly, List.mem_map] at ha
  obtain ⟨k, hk, rfl⟩ := ha
  rw [List.mem_dedup, List.mem_map] at hk
  obtain ⟨x, hx, hxk⟩ := hk
  have hxg : x ∈ (db.consumo_hora.filter (hourRowInDay (d * 1440) (d * 1440 + 1440))).filter
      (fun h => decide (h.id_sede_fk = k)) := by
    rw [List.mem_filter]
    exact ⟨hx, by simp [hxk]⟩
  exact List.length_pos_of_mem hxg

theorem unprocessedInWindow_mark (s e : Nat) (r : Reading) :
    unprocessedInWindow s e (markReadingInWindow s e r) = false := by
  unfold unprocessedInWindow markReadingInWindow
  split
  · simp
  · next h => simpa using h

theorem markReadingInWindow_idem (s e : Nat) (r : Reading) :
    markReadingInWindow s e (markReadingInWindow s e r) = markReadingInWindow s e r := by
  unfold markReadingInWindow
  split_ifs <;> simp_all

theorem markReadingInWindow_mono (s e : Nat) (r : Reading) (h : r.procesado = true) :
    (markReadingInWindow s e r).procesado = true := by
  unfold markReadingInWindow
  split_ifs with hc
  · rfl
  · exact h

/-! Claim theorems. -/

/-- C1 (amended): with an existing watermark, the hourly catch-up starts at
`max(lastProcessed + 1h, truncHour(earliest unprocessed reading))`, while the
daily catch-up starts at `lastProcessed + 1 day` unconditionally, with no
clamp against the earliest hourly date; with no watermark, both start at the
earliest available source bucket (hour-truncation of the earliest unprocessed
reading, resp. earliest date in the hourly store). -/
theorem C1_next_window :
    (∀ (db : DB) (lp fu : Nat),
        find_last_processed_hour db = some lp →
        find_first_unprocessed_reading_time db = some fu →
        hourlyNextWindow db = some (max (lp + 60) (truncHour fu))) ∧
    (∀ (db : DB) (fu : Nat),
        find_last_processed_hour db = none →
        find_first_unprocessed_reading_time db = some fu →
        hourlyNextWindow db = some (truncHour fu)) ∧
    (∀ (db : DB) (lp : Nat),
        find_last_processed_day db = some lp →
        dailyNextWindow db = some (lp + 1)) ∧
    (∀ (db : DB) (fd : Nat),
        find_last_processed_day db = none →
        first_date_in_hourly db = some fd →
        dailyNextWindow db = some fd) := by
  refine ⟨?_, ?_, ?_, ?_⟩
  · intro db lp fu h1 h2
    unfold hourlyNextWindow nextHourToProcess
    rw [h1, h2]
    simp only [Option.map_some']
    congr 1
    split_ifs <;> omega
  · intro db fu h1 h2
    unfold hourlyNextWindow nextHourToProcess
    rw [h1, h2]
    rfl
  · intro db lp h1
    unfold dailyNextWindow
    rw [h1]
  · intro db fd h1 h2
    unfold dailyNextWindow
    rw [h1, h2]

/-- C1 counterexample: with the daily watermark at day 10 and the earliest
hourly data at day 20, the claim predicts a start at
`max(10 + 1, 20) = 20`, but `run_daily_catchup` starts (and first processes)
day 11. -/
theorem C1_counterexample :
    find_last_processed_day c1db = some 10 ∧
    first_date_in_hourly c1db = some 20 ∧
    dailyNextWindow c1db = some 11 ∧
    dailyNextWindow c1db ≠ some (max (10 + 1) 20) ∧
    (run_daily_catchup_core noFaults c1db).2.2.head?.map Prod.fst = some 11 := by
  exact ⟨by decide, by decide, by decide, by decide, by decide⟩

/-- C1 witness: a concrete database with hourly watermark minute 60 and
earliest unprocessed reading at minute 155, where the next hourly window is
`max(60 + 60, truncHour 155) = 120`. -/
theorem C1_witness :
    find_last_processed_hour c1wdb = some 60 ∧
    find_first_unprocessed_reading_time c1wdb = some 155 ∧
    hourlyNextWindow c1wdb = some (max (60 + 60) (truncHour 155)) :=
  ⟨by decide, by decide, C1_next_window.1 c1wdb 60 155 (by decide) (by decide)⟩

/-- C2 (amended): the bucket aggregation performs no window validation at
all: with `windowEnd ≤ windowStart` the hourly aggregation raises nothing and
returns the empty list (no row satisfies a reversed half-open range); no
`InvalidWindow` error exists in the code. -/
theorem C2_no_window_validation (db : DB) (s e : Nat) (h : e ≤ s) :
    aggregate_hourly_consumption db s e = [] := by
  have hf : db.lecturas.filter (unprocessedInWindow s e) = [] := by
    rw [List.filter_eq_nil_iff]
    intro a _
    unfold unprocessedInWindow
    simp only [decide_eq_true_eq, not_and]
    omega
  simp only [aggregate_hourly_consumption]
  rw [hf]
  rfl

/-- C2 counterexample: on the reversed window `[720, 660)` the repository
aggregation returns the result `[]` instead of failing, while the
spec-modelled aggregation fails with `InvalidWindow`. -/
theorem C2_counterexample :
    aggregate_hourly_consumption c2db 720 660 = ([] : List HourlyAggRow) ∧
    aggregate_hourly_consumption_specModel c2db 720 660 = Except.error "InvalidWindow" ∧
    (Except.ok ([] : List HourlyAggRow) : Except String (List HourlyAggRow)) ≠
      Except.error "InvalidWindow" := by
  refine ⟨by decide, by rfl, by simp⟩

/-- C2 witness: the amended theorem applied to the reversed window
`[720, 660)` on a database holding one reading. -/
theorem C2_witness :
    (660 : Nat) ≤ 720 ∧ aggregate_hourly_consumption c2db 720 660 = [] :=
  ⟨by decide, C2_no_window_validation c2db 720 660 (by decide)⟩

/-- C3 (amended): both catch-up drivers return Python `None` on every path;
the per-invocation window count `total_processed_count` is only computed
internally (and logged), and it never exceeds the per-run cap, at which the
loop stops cleanly rather than erroring. -/
theorem C3_drivers_return_none (f : Faults) (db : DB) :
    (run_hourly_catchup f db).2 = none ∧
    (run_daily_catchup f db).2 = none ∧
    run_hourly_catchup_count f db ≤ maxHoursPerRun ∧
    run_daily_catchup_count f db ≤ maxDaysPerRun := by
  refine ⟨rfl, rfl, ?_, ?_⟩
  · unfold run_hourly_catchup_count run_hourly_catchup_core
    rcases h1 : hourlyNextWindow db with _ | nxt
    · exact Nat.zero_le _
    · rcases h2 : latest_reading_time db with _ | m
      · exact Nat.zero_le _
      · have := catchupLoopGo_count_le (fun d w => process_hourly_batch f d (w + 60))
          maxHoursPerRun (hourlyWindows nxt (truncHour m)) db 0 0
        simpa using this
  · unfold run_daily_catchup_count run_daily_catchup_core
    rcases h1 : find_last_date_in_hourly db with _ | ld
    · exact Nat.zero_le _
    · rcases h2 : dailyNextWindow db with _ | nxt
      · exact Nat.zero_le _
      · have := catchupLoopGo_count_le (fun d w => process_daily_batch f d w)
          maxDaysPerRun (dailyWindows nxt ld) db 0 0
        simpa using this

/-- C3 counterexample: a database state on which `run_hourly_catchup`
processes exactly one window (its internal, logged count is 1) yet returns
`None`, not the number of windows processed. -/
theorem C3_counterexample :
    (run_hourly_catchup noFaults c3db).2 = none ∧
    run_hourly_catchup_count noFaults c3db = 1 ∧
    (none : Option Nat) ≠ some 1 := by
  exact ⟨by decide, by decide, by decide⟩

/-- C9: marking a window as consumed is idempotent: a second call with the
same bounds leaves the state unchanged and reports 0 affected rows, and the
per-row update never flips a `procesado = true` flag back to false. -/
theorem C9_mark_idempotent (db : DB) (s e : Nat) :
    (mark_readings_as_processed (mark_readings_as_processed db s e).1 s e).1 =
      (mark_readings_as_processed db s e).1 ∧
    (mark_readings_as_processed (mark_readings_as_processed db s e).1 s e).2 = 0 ∧
    (∀ r ∈ db.lecturas, r.procesado = true →
      (markReadingInWindow s e r).procesado = true) := by
  refine ⟨?_, ?_, fun r _ h => markReadingInWindow_mono s e r h⟩
  · unfold mark_readings_as_processed
    simp only
    congr 1
    rw [List.map_map]
    exact List.map_congr_left (fun a _ => by
      simp only [Function.comp_apply]
      exact markReadingInWindow_idem s e a)
  · unfold mark_readings_as_processed
    simp only
    have hf : (db.lecturas.map (markReadingInWindow s e)).filter (unprocessedInWindow s e)
        = [] := by
      rw [List.filter_eq_nil_iff]
      intro a ha
      rw [List.mem_map] at ha
      obtain ⟨x, _, rfl⟩ := ha
      simp [unprocessedInWindow_mark]
    rw [hf]
    rfl

/-- C9 witness: instance of the marking monotonicity on an already-consumed
reading, together with the closed idempotence instance. -/
theorem C9_witness :
    (markReadingInWindow 600 660 ⟨1, 605, 2, true⟩).procesado = true :=
  (C9_mark_idempotent ⟨[⟨1, 605, 2, true⟩], [], [], 0⟩ 600 660).2.2
    ⟨1, 605, 2, true⟩ (by simp) (by rfl)

/-- C4: every window the hourly catch-up hands to the processor lies strictly
below the hour-truncation of the newest raw reading (exclusive frontier, so
the newest reading's own bucket is never processed), every window the daily
catch-up hands to the processor is at most the newest date in the hourly
store (inclusive frontier), and both traces are strictly increasing. -/
theorem C4_frontiers (f : Faults) (db : DB) :
    (∀ m, latest_reading_time db = some m →
        ∀ p ∈ (run_hourly_catchup_core f db).2.2, p.1 < truncHour m) ∧
    ((run_hourly_catchup_core f db).2.2.map Prod.fst).Pairwise (· < ·) ∧
    (∀ ld, find_last_date_in_hourly db = some ld →
        ∀ p ∈ (run_daily_catchup_core f db).2.2, p.1 ≤ ld) ∧
    ((run_daily_catchup_core f db).2.2.map Prod.fst).Pairwise (· < ·) := by
  refine ⟨?_, ?_, ?_, ?_⟩
  · intro m hm p hp
    unfold run_hourly_catchup_core at hp
    rcases h1 : hourlyNextWindow db with _ | nxt
    · rw [h1] at hp
      simp at hp
    · rw [h1, hm] at hp
      obtain ⟨k, hk⟩ := catchupLoopGo_trace_take
        (fun dd w => process_hourly_batch f dd (w + 60)) maxHoursPerRun
        (hourlyWindows nxt (truncHour m)) db 0 0
      have hmem : p.1 ∈ (hourlyWindows nxt (truncHour m)).take k := by
        rw [← hk]
        exact List.mem_map_of_mem Prod.fst hp
      exact (mem_hourlyWindows_bounds (List.take_subset _ _ hmem)).2
  · unfold run_hourly_catchup_core
    rcases h1 : hourlyNextWindow db with _ | nxt
    · simp
    · rcases h2 : latest_reading_time db with _ | m
      · simp
      · dsimp only
        obtain ⟨k, hk⟩ := catchupLoopGo_trace_take
          (fun dd w => process_hourly_batch f dd (w + 60)) maxHoursPerRun
          (hourlyWindows nxt (truncHour m)) db 0 0
        rw [hk]
        exact List.Pairwise.sublist (List.take_sublist _ _)
          (range'_pairwise_lt 60 (by omega) _ _)
  · intro ld hld p hp
    unfold run_daily_catchup_core at hp
    rw [hld] at hp
    rcases h1 : dailyNextWindow db with _ | nxt
    · rw [h1] at hp
      simp at hp
    · rw [h1] at hp
      obtain ⟨k, hk⟩ := catchupLoopGo_trace_take
        (fun dd w => process_daily_batch f dd w) maxDaysPerRun
        (dailyWindows nxt ld) db 0 0
      have hmem : p.1 ∈ (dailyWindows nxt ld).take k := by
        rw [← hk]
        exact List.mem_map_of_mem Prod.fst hp
      exact (mem_dailyWindows_bounds (List.take_subset _ _ hmem)).2
  · unfold run_daily_catchup_core
    rcases h1 : find_last_date_in_hourly db with _ | ld
    · simp
    · rcases h2 : dailyNextWindow db with _ | nxt
      · simp
      · dsimp only
        obtain ⟨k, hk⟩ := catchupLoopGo_trace_take
          (fun dd w => process_daily_batch f dd w) maxDaysPerRun
          (dailyWindows nxt ld) db 0 0
        rw [hk]
        exact List.Pairwise.sublist (List.take_sublist _ _)
          (range'_pairwise_lt 1 (by omega) _ _)

/-- C4 witness: on the database with readings at minutes 605 and 700 the only
processed hourly window is 600, which is strictly below `truncHour 700`. -/
theorem C4_witness : (600 : Nat) < truncHour 700 :=
  (C4_frontiers noFaults c3db).1 700 (by decide) (600, BStatus.success) (by decide)

/-- C5 (amended): the single-window processors never raise past their
boundary: whenever a storage call raises, the transaction is rolled back (the
returned state is the entry state) and the discriminated `{status: error,
message}` dict is returned; when no storage call raises the result has
`{status: success}` with a message reporting the number of aggregate rows
written (or a no-data notice) — the rows-marked count is not part of the
returned result. -/
theorem C5_processor_boundary (f : Faults) (db : DB) (t d : Nat) :
    ((process_hourly_batch f db t).2.status = BStatus.error →
      (process_hourly_batch f db t).1 = db) ∧
    ((process_daily_batch f db d).2.status = BStatus.error →
      (process_daily_batch f db d).1 = db) ∧
    (noHourlyFault f (truncHour t - 60) = true →
      (process_hourly_batch f db t).2.status = BStatus.success) ∧
    (noDailyFault f d = true →
      (process_daily_batch f db d).2.status = BStatus.success) := by
  refine ⟨?_, ?_, ?_, ?_⟩
  · simp only [process_hourly_batch]
    split_ifs <;> simp
  · simp only [process_daily_batch]
    split_ifs <;> simp
  · intro h
    have h1 : f.aggF (truncHour t - 60) = false ∧ f.saveF (truncHour t - 60) = false ∧
        f.markF (truncHour t - 60) = false ∧ f.commitF (truncHour t - 60) = false := by
      simpa [noHourlyFault, and_assoc] using h
    obtain ⟨ha, hs, hm, hc⟩ := h1
    simp only [process_hourly_batch, ha, hs, hm, hc, Bool.false_eq_true, if_false]
    split <;> rfl
  · intro h
    have h1 : f.aggF d = false ∧ f.saveF d = false ∧ f.commitF d = false := by
      simpa [noDailyFault, and_assoc] using h
    obtain ⟨ha, hs, hc⟩ := h1
    simp only [process_daily_batch, ha, hs, hc, Bool.false_eq_true, if_false]
    split <;> rfl

/-- C5 counterexample: two database states whose hourly runs mark different
numbers of rows (1 versus 2) yet return byte-for-byte identical success
results — the result does not carry the rows-marked count the claim says it
returns. -/
theorem C5_counterexample :
    (process_hourly_batch noFaults c5db1 700).2 = (process_hourly_batch noFaults c5db2 700).2 ∧
    (mark_readings_as_processed c5db1 600 660).2 = 1 ∧
    (mark_readings_as_processed c5db2 600 660).2 = 2 := by
  exact ⟨by decide, by decide, by decide⟩

/-- C5 witness: a fault-free hourly run returns the success status. -/
theorem C5_witness : (process_hourly_batch noFaults c5db1 700).2.status = BStatus.success :=
  (C5_processor_boundary noFaults c5db1 700 0).2.2.1 (by decide)

/-- C6: in both catch-up drivers, every window of the processing trace except
possibly the last returned success (the driver halts at the first failure,
so no window after a failed one is ever handed to the processor) and the
reported count is exactly the number of successful windows; moreover, in the
concrete scenario with daily watermark day 1000 (2024-03-01) and hourly data
through day 1003 (2024-03-04), the run with a storage fault at day 1002
(2024-03-03) processes days 1001 then 1002 in order and reports 1, while the
fault-free run processes 1001, 1002, 1003 in order and reports 3. -/
theorem C6_halt_on_failure (f : Faults) (db : DB) :
    (∀ p ∈ (run_hourly_catchup_core f db).2.2.dropLast, p.2 = BStatus.success) ∧
    (run_hourly_catchup_core f db).2.1 =
      ((run_hourly_catchup_core f db).2.2.filter
        (fun p => decide (p.2 = BStatus.success))).length ∧
    (∀ p ∈ (run_daily_catchup_core f db).2.2.dropLast, p.2 = BStatus.success) ∧
    (run_daily_catchup_core f db).2.1 =
      ((run_daily_catchup_core f db).2.2.filter
        (fun p => decide (p.2 = BStatus.success))).length ∧
    (run_daily_catchup_core c6faults c6db).2 =
      (1, [(1001, BStatus.success), (1002, BStatus.error)]) ∧
    (run_daily_catchup_core noFaults c6db).2 =
      (3, [(1001, BStatus.success), (1002, BStatus.success), (1003, BStatus.success)]) := by
  refine ⟨?_, ?_, ?_, ?_, by decide, by decide⟩
  · intro p hp
    unfold run_hourly_catchup_core at hp
    rcases h1 : hourlyNextWindow db with _ | nxt
    · rw [h1] at hp
      simp at hp
    · rw [h1] at hp
      rcases h2 : latest_reading_time db with _ | m
      · rw [h2] at hp
        simp at hp
      · rw [h2] at hp
        exact catchupLoopGo_dropLast_success _ _ _ _ _ _ p hp
  · unfold run_hourly_catchup_core
    rcases h1 : hourlyNextWindow db with _ | nxt
    · simp
    · rcases h2 : latest_reading_time db with _ | m
      · simp
      · have := catchupLoopGo_count_eq
          (fun dd w => process_hourly_batch f dd (w + 60)) maxHoursPerRun
          (hourlyWindows nxt (truncHour m)) db 0 0
        simpa using this
  · intro p hp
    unfold run_daily_catchup_core at hp
    rcases h1 : find_last_date_in_hourly db with _ | ld
    · rw [h1] at hp
      simp at hp
    · rw [h1] at hp
      rcases h2 : dailyNextWindow db with _ | nxt
      · rw [h2] at hp
        simp at hp
      · rw [h2] at hp
        exact catchupLoopGo_dropLast_success _ _ _ _ _ _ p hp
  · unfold run_daily_catchup_core
    rcases h1 : find_last_date_in_hourly db with _ | ld
    · simp
    · rcases h2 : dailyNextWindow db with _ | nxt
      · simp
      · have := catchupLoopGo_count_eq
          (fun dd w => process_daily_batch f dd w) maxDaysPerRun
          (dailyWindows nxt ld) db 0 0
        simpa using this

/-- C6 witness: in the faulty scenario run, the one window before the last is
a success. -/
theorem C6_witness : ((1001 : Nat), BStatus.success).2 = BStatus.success :=
  (C6_halt_on_failure c6faults c6db).2.2.1 (1001, BStatus.success) (by decide)

/-- C7: running the hourly processor with any supplied timestamp in
`[11:00, 12:00)` (minutes 660..719) processes the preceding complete hour
`[10:00, 11:00)` over the two unconsumed readings of site E1 (10:05 with 2.0
and 10:40 with 3.0): it writes exactly one hourly aggregate row with site 1,
total 5, count 2, average 5/2 = 2.5, marks both source readings consumed, and
reports success; the second conjunct spells out the single grouped aggregate
the window produces. -/
theorem C7_hourly_scenario (t : Nat) (h1 : 660 ≤ t) (h2 : t < 720) :
    process_hourly_batch noFaults c7db t =
      (c7db', ⟨BStatus.success, "Processed 1 aggregates for hour 600."⟩) ∧
    aggregate_hourly_consumption c7db 600 660 = [⟨1, 5, 2, some ((5 : ℚ) / 2)⟩] := by
  have ht : truncHour t = 660 := by
    unfold truncHour
    omega
  constructor
  · rw [process_hourly_batch_trunc, ht]
    simp +decide [process_hourly_batch, aggregate_hourly_consumption, unprocessedInWindow,
      mark_readings_as_processed, save_hourly_aggregates, hourRowFromAgg, markReadingInWindow,
      noFaults, c7db, c7db', truncHour]
    norm_num
  · simp +decide [aggregate_hourly_consumption, unprocessedInWindow, c7db]
    norm_num

/-- C7 witness: the scenario instantiated at the supplied timestamp 700
(11:40). -/
theorem C7_witness :
    (660 : Nat) ≤ 700 ∧ (700 : Nat) < 720 ∧
    (process_hourly_batch noFaults c7db 700 =
      (c7db', ⟨BStatus.success, "Processed 1 aggregates for hour 600."⟩) ∧
     aggregate_hourly_consumption c7db 600 660 = [⟨1, 5, 2, some ((5 : ℚ) / 2)⟩]) :=
  ⟨by decide, by decide, C7_hourly_scenario 700 (by decide) (by decide)⟩

/-- C8: every hourly aggregate row produced by the grouped aggregation has
average = sum/count when its count is positive and NULL average when its
count is zero, while every daily row built by `save_daily_aggregates` has
per-hour average total/hours when `hours_with_data` is positive and exactly 0
when it is zero — the hourly/daily asymmetry of the zero case. -/
theorem C8_average_asymmetry :
    (∀ (db : DB) (s e : Nat), ∀ r ∈ aggregate_hourly_consumption db s e,
        (0 < r.count → r.avg_kwh = some (r.total_kwh / (r.count : ℚ))) ∧
        (r.count = 0 → r.avg_kwh = none)) ∧
    (∀ (a : DailyAggRow) (d now : Nat),
        (0 < a.hour_count →
          (dailyRowFromAgg a d now).consumo_promedio_horario_kwh =
            a.total_daily_kwh / (a.hour_count : ℚ)) ∧
        (a.hour_count = 0 →
          (dailyRowFromAgg a d now).consumo_promedio_horario_kwh = 0)) := by
  constructor
  · intro db s e r hr
    obtain ⟨hc, ha⟩ := mem_aggregate_hourly hr
    exact ⟨fun _ => ha, fun h0 => absurd h0 (by omega)⟩
  · intro a d now
    constructor
    · intro h
      unfold dailyRowFromAgg
      simp only
      rw [if_pos h]
    · intro h
      unfold dailyRowFromAgg
      simp only
      rw [if_neg (by omega)]

/-- C8 witness: the aggregate row of the C7 window has positive count and
average = total/count; a daily aggregate with zero hours gets average 0. -/
theorem C8_witness :
    (⟨1, 5, 2, some ((5 : ℚ) / 2)⟩ : HourlyAggRow).avg_kwh =
      some ((⟨1, 5, 2, some ((5 : ℚ) / 2)⟩ : HourlyAggRow).total_kwh /
        ((⟨1, 5, 2, some ((5 : ℚ) / 2)⟩ : HourlyAggRow).count : ℚ)) ∧
    (dailyRowFromAgg ⟨1, 0, 0⟩ 5 0).consumo_promedio_horario_kwh = 0 :=
  ⟨(C8_average_asymmetry.1 c7db 600 660 ⟨1, 5, 2, some ((5 : ℚ) / 2)⟩
      (by simp +decide [aggregate_hourly_consumption, unprocessedInWindow, c7db]
          norm_num)).1 (by decide),
   (C8_average_asymmetry.2 ⟨1, 0, 0⟩ 5 0).2 (by rfl)⟩

/-- C10: every row produced by either aggregator comes from a non-empty SQL
group, so its count is at least 1; consequently the daily rows built from the
daily aggregator never take the `else 0` division guard (the average is always
total/hours), and every hourly row persisted by the aggregate-then-save
pipeline carries a non-NULL average. -/
theorem C10_groups_nonempty :
    (∀ (db : DB) (s e : Nat), ∀ r ∈ aggregate_hourly_consumption db s e,
        1 ≤ r.count ∧ r.avg_kwh ≠ none) ∧
    (∀ (db : DB) (d : Nat), ∀ a ∈ aggregate_daily_consumption_from_hourly db d,
        1 ≤ a.hour_count) ∧
    (∀ (db : DB) (d now : Nat), ∀ a ∈ aggregate_daily_consumption_from_hourly db d,
        (dailyRowFromAgg a d now).consumo_promedio_horario_kwh =
          a.total_daily_kwh / (a.hour_count : ℚ)) ∧
    (∀ (db : DB) (s e : Nat),
        ∀ hrow ∈ (save_hourly_aggregates db (aggregate_hourly_consumption db s e) s).consumo_hora,
          hrow ∈ db.consumo_hora ∨ hrow.consumo_promedio_kwh ≠ none) := by
  refine ⟨?_, ?_, ?_, ?_⟩
  · intro db s e r hr
    obtain ⟨hc, ha⟩ := mem_aggregate_hourly hr
    refine ⟨hc, ?_⟩
    rw [ha]
    simp
  · exact fun db d a ha => mem_aggregate_daily ha
  · intro db d now a ha
    have hc := mem_aggregate_daily ha
    unfold dailyRowFromAgg
    simp only
    rw [if_pos (by omega)]
  · intro db s e hrow hmem
    unfold save_hourly_aggregates at hmem
    simp only [List.mem_append] at hmem
    rcases hmem with h | h
    · exact Or.inl h
    · right
      rw [List.mem_map] at h
      obtain ⟨a, hag, rfl⟩ := h
      obtain ⟨_, ha⟩ := mem_aggregate_hourly hag
      unfold hourRowFromAgg
      simp only
      rw [ha]
      simp

/-- C10 witness: the single aggregate row of the C7 window has count 2 ≥ 1
and a non-NULL average. -/
theorem C10_witness :
    1 ≤ (⟨1, 5, 2, some ((5 : ℚ) / 2)⟩ : HourlyAggRow).count ∧
    (⟨1, 5, 2, some ((5 : ℚ) / 2)⟩ : HourlyAggRow).avg_kwh ≠ none :=
  C10_groups_nonempty.1 c7db 600 660 ⟨1, 5, 2, some ((5 : ℚ) / 2)⟩
    (by simp +decide [aggregate_hourly_consumption, unprocessedInWindow, c7db]
        norm_num)

end EnergyBatch
